import Mathlib

/-!
Verification development for the context-dependency resolution core of the
Extractor_Snippets repository.  The Python sources are shallowly embedded:
pure functions become Lean functions, class methods become functions over
explicit state, Python dicts become insertion-ordered association lists,
floats become exact rationals (`PyFloat`), and fallible code returns
`Option`/`Except`.  Calls into the Python runtime or external libraries
(`ast.parse`, `json.loads`, the `re` regex engine, the network, the clock)
are taken as function parameters, documented at each definition; everything
else is translated from the source files.
-/

namespace Extractor

/-! ## Exact rationals for Python floats

The sources compare and combine float constants with one or four decimal
places (confidence thresholds, per-token prices).  They are embedded as
exact rationals in canonical form, with executable arithmetic.  `pyf n d`
denotes `n / d`. -/

/-- An exact rational: numerator and positive denominator (canonical when
built by `pyf`). -/
structure PyFloat where
  num : Int
  den : Nat
deriving DecidableEq

/-- Canonical constructor: divides out the gcd (a zero denominator, which no
Python float has, is mapped to 0). -/
def pyf (n : Int) (d : Nat) : PyFloat :=
  if d = 0 then ⟨0, 1⟩
  else
    let g := Nat.gcd n.natAbs d
    ⟨n / (g : Int), d / g⟩

/-- Embeds a Python int used as a float. -/
def pyfOfNat (n : Nat) : PyFloat := ⟨(n : Int), 1⟩

/-- Addition. -/
def pyfAdd (a b : PyFloat) : PyFloat :=
  pyf (a.num * (b.den : Int) + b.num * (a.den : Int)) (a.den * b.den)

/-- Multiplication. -/
def pyfMul (a b : PyFloat) : PyFloat := pyf (a.num * b.num) (a.den * b.den)

/-- Division (`a / b`; division by zero, impossible in the guarded source
paths, yields 0). -/
def pyfDiv (a b : PyFloat) : PyFloat :=
  if b.num < 0 then pyf (-(a.num * (b.den : Int))) ((a.den : Int) * (-b.num)).toNat
  else pyf (a.num * (b.den : Int)) ((a.den : Int) * b.num).toNat

/-- Strict comparison by cross multiplication (denominators positive). -/
def pyfLt (a b : PyFloat) : Bool := a.num * (b.den : Int) < b.num * (a.den : Int)

/-- Non-strict comparison. -/
def pyfLe (a b : PyFloat) : Bool := a.num * (b.den : Int) ≤ b.num * (a.den : Int)

/-- Python's binary `min`: the first argument when they compare equal. -/
def pyfMin (a b : PyFloat) : PyFloat := if pyfLe a b then a else b

/-! ## Python string primitives

Executable embeddings of the `str` methods the sources use, working on the
character list of the string: `strip`, `lower`, `split('\n')`, whitespace
`split()`, `startswith`, `endswith`, `replace` and `'sep'.join`. -/

/-- `str.strip()`: drop leading and trailing whitespace. -/
def pyStrip (s : String) : String :=
  String.mk (((s.data.dropWhile Char.isWhitespace).reverse.dropWhile
    Char.isWhitespace).reverse)

/-- `str.lower()` (ASCII view, all the compared text is ASCII). -/
def pyLower (s : String) : String := String.mk (s.data.map Char.toLower)

/-- `str.split(sep)` on character lists: split at every separator. -/
def splitCharList (sep : Char) : List Char → List (List Char)
  | [] => [[]]
  | c :: cs =>
    let rest := splitCharList sep cs
    if c = sep then [] :: rest
    else
      match rest with
      | r :: rs => (c :: r) :: rs
      | [] => [[c]]

/-- `str.split('\n')`. -/
def pySplitNewlines (s : String) : List String :=
  (splitCharList '\n' s.data).map String.mk

/-- `str.startswith(pre)`. -/
def pyStartsWith (s pre : String) : Bool := pre.data.isPrefixOf s.data

/-- `str.endswith(suf)`. -/
def pyEndsWith (s suf : String) : Bool := suf.data.isSuffixOf s.data

/-- `sep.join(parts)`. -/
def joinWith (sep : String) : List String → String
  | [] => ""
  | [x] => x
  | x :: y :: rest => x ++ sep ++ joinWith sep (y :: rest)

/-- `str.replace(pat, repl)` for a non-empty pattern, by fuel-indexed
left-to-right scan (the fuel is the text length, always sufficient). -/
def replaceGo (pat repl : List Char) : Nat → List Char → List Char
  | 0, rest => rest
  | _ + 1, [] => []
  | fuel + 1, c :: cs =>
    if pat ≠ [] ∧ pat.isPrefixOf (c :: cs) then
      repl ++ replaceGo pat repl fuel ((c :: cs).drop pat.length)
    else c :: replaceGo pat repl fuel cs

/-- `str.replace(pat, repl)` (the sources only use non-empty patterns). -/
def pyReplace (s pat repl : String) : String :=
  String.mk (replaceGo pat.data repl.data s.data.length s.data)

/-- `len(s.split())`: the number of maximal whitespace-separated words;
`inWord` tracks whether the previous character was inside a word. -/
def countWordsAux : Bool → List Char → Nat
  | _, [] => 0
  | inWord, c :: cs =>
    if c.isWhitespace then countWordsAux false cs
    else (if inWord then 0 else 1) + countWordsAux true cs

/-- `len(prompt.split())` (llm_client.py line 280). -/
def countWords (s : String) : Nat := countWordsAux false s.data

/-! ## Window computation

Embeds `_calculate_window_indices` from `src/src/snippets/agents/base_agent.py`
(lines 235-256) and the identical copy in `context_analyzer.py` (lines 78-97):
`start = max(0, target_index - window_size)`,
`end = min(total_snippets, target_index + window_size + 1)`,
`indices = list(range(start, end))`. -/

/-- `list(range(s, e))` over the integers: the list `[s, s+1, ..., e-1]`. -/
def intRange (s e : Int) : List Int :=
  (List.range (e - s).toNat).map (fun k : Nat => s + (k : Int))

/-- `ContextAnalyzer._calculate_window_indices` / `BaseAgent._calculate_window_indices`. -/
def calculateWindowIndices (targetIndex totalSnippets windowSize : Int) : List Int :=
  let windowStart := max 0 (targetIndex - windowSize)
  let windowEnd := min totalSnippets (targetIndex + windowSize + 1)
  intRange windowStart windowEnd

/-! ## A JSON-like value type

Stands for the values produced by Python's `json.loads` (an external library
call, which the parser models below take as a `loads` parameter). -/

inductive JsonVal where
  | obj (fields : List (String × JsonVal))
  | arr (items : List JsonVal)
  | str (s : String)
  | num (q : PyFloat)
  | boolean (b : Bool)
  | null

/-! ## Structured-Recovery Parser, agents copy

Embeds `RobustJSONParser.parse` from
`src/src/snippets/agents/robust_json_parser.py` (lines 51-131).  The eight
cleaning strategies (`_extract_json_blocks`, `_fix_common_llm_errors`,
`_fix_trailing_commas`, `_fix_quotes`, `_fix_multiline_strings`,
`_fix_unescaped_chars`, the partial-extraction strategy and
`_build_json_from_patterns`) are regex-based text transforms built on
Python's `re` library; they are passed as named `String → Option String`
parameters (`none` models a strategy raising, which the source catches and
skips), and `json.loads` is passed as `loads`.  The optional `json5.loads`
dependency is modeled by an `Option (String → Option JsonVal)`, `none`
meaning `ImportError`. -/

/-- `ParseResult` dataclass of the agents parser. -/
structure ParseResult where
  success : Bool
  data : JsonVal
  methodUsed : String
  originalContent : String
  cleanedContent : Option String
  errors : List String

/-- The empty-but-valid default value returned when every strategy fails
(lines 119-131 of the agents parser): all four buckets empty and
`overall_confidence` 0. -/
def fallbackEmptyData : JsonVal :=
  .obj [("variables", .obj []), ("classes", .obj []), ("imports", .obj []),
        ("functions", .obj []), ("overall_confidence", .num (pyf 0 1))]

/-- The progressive-strategies loop of `parse` (lines 76-96): each strategy is
tried in order; a cleaned text that is nonempty and differs from the original
is fed to `json.loads`; any failure continues with the next strategy. -/
def tryCleaningStrategies (loads : String → Option JsonVal) :
    List (String × (String → Option String)) → String → Nat → Option ParseResult
  | [], _, _ => none
  | (strategyName, strategy) :: rest, original, i =>
    match strategy original with
    | some cleaned =>
      if cleaned ≠ "" ∧ cleaned ≠ original then
        match loads cleaned with
        | some data =>
          some ⟨true, data, "strategy_" ++ toString i ++ "_" ++ strategyName,
                original, some cleaned, []⟩
        | none => tryCleaningStrategies loads rest original (i + 1)
      else tryCleaningStrategies loads rest original (i + 1)
    | none => tryCleaningStrategies loads rest original (i + 1)

/-- The final json5 block of `parse` (lines 99-116): only the first four
cleaning strategies, only requiring the cleaned text to be nonempty. -/
def tryJson5Strategies (json5loads : String → Option JsonVal) :
    List (String × (String → Option String)) → String → Option ParseResult
  | [], _ => none
  | (strategyName, strategy) :: rest, original =>
    match strategy original with
    | some cleaned =>
      if cleaned ≠ "" then
        match json5loads cleaned with
        | some data =>
          some ⟨true, data, "json5_" ++ strategyName, original, some cleaned, []⟩
        | none => tryJson5Strategies json5loads rest original
      else tryJson5Strategies json5loads rest original
    | none => tryJson5Strategies json5loads rest original

/-- `RobustJSONParser.parse` of the agents copy: direct decode, then the
cleaning-strategy cascade, then the json5 pass, then the empty fallback.
Every failure path is caught in the source, so the embedding is a total
function into `ParseResult`. -/
def agentsParse (loads : String → Option JsonVal)
    (strategies : List (String × (String → Option String)))
    (json5loads : Option (String → Option JsonVal)) (content : String) : ParseResult :=
  let original := pyStrip content
  match loads original with
  | some data => ⟨true, data, "direct_parsing", original, none, []⟩
  | none =>
    match tryCleaningStrategies loads strategies original 1 with
    | some r => r
    | none =>
      let json5Result :=
        match json5loads with
        | some j5 => tryJson5Strategies j5 (strategies.take 4) original
        | none => none
      match json5Result with
      | some r => r
      | none =>
        ⟨false, fallbackEmptyData, "fallback_empty", original, none,
         ["All parsing strategies failed"]⟩

/-! ## Structured-Recovery Parser, core copy

Embeds `RobustJSONParser.parse` from `src/core/robust_json_parser.py`
(lines 30-79), the copy actually imported by `ContextAnalyzer`.  Unlike the
agents copy it RAISES `ValueError` (modeled by `Except.error`) on empty input
and when every strategy fails.  Its regex helpers are again parameters:
`blockCandidates` stands for the `re.findall` candidates of
`_try_json_block_extraction`, `errorCorrect` for the six regex substitutions
of `_try_error_correction`, `json5Clean` for the comment/trailing-comma/quote
normalization of `_try_json5_parsing`, and `minimalFallback` for the
pattern-assembly of `_try_minimal_fallback` (`none` = it found nothing). -/

/-- Strategy 2 of the core parser: feed each extracted block candidate,
stripped, to `json.loads`, returning the first success. -/
def firstCandidateLoads (loads : String → Option JsonVal) : List String → Option JsonVal
  | [] => none
  | candidate :: rest =>
    match loads (pyStrip candidate) with
    | some v => some v
    | none => firstCandidateLoads loads rest

/-- `RobustJSONParser.parse` of the core copy (`src/core/robust_json_parser.py`
lines 30-79).  `Except.error` models `raise ValueError`. -/
def coreParse (loads : String → Option JsonVal)
    (blockCandidates : String → List String)
    (errorCorrect : String → String)
    (json5Clean : String → String)
    (minimalFallback : String → Option JsonVal)
    (text : String) : Except String JsonVal :=
  if pyStrip text = "" then .error "Empty or whitespace-only text provided"
  else
    match loads (pyStrip text) with
    | some v => .ok v
    | none =>
      match firstCandidateLoads loads (blockCandidates text) with
      | some v => .ok v
      | none =>
        match loads (errorCorrect text) with
        | some v => .ok v
        | none =>
          match loads (json5Clean text) with
          | some v => .ok v
          | none =>
            match minimalFallback text with
            | some v => .ok v
            | none => .error "Unable to parse JSON from response using any strategy"

/-! ## Data model

`DependencyMap` from `src/src/snippets/agents/base_agent.py` (lines 41-53).
Python buckets are `Dict[str, Dict[str, Any]]`; they are embedded as
insertion-ordered association lists.  The inner detail dicts use the keys
consulted anywhere in the pipeline (`confidence`, `definition`, `type`,
`import_statement`, `defined_in_snippet`); an absent key is `none`. -/

/-- One bucket entry's detail dict.  `typeHint` embeds the `"type"` key. -/
structure EntryDetails where
  confidence : Option PyFloat
  definition : Option String
  typeHint : Option String
  importStatement : Option String
  definedInSnippet : Option Int
deriving DecidableEq

/-- `DependencyMap` (pydantic model).  `vars` embeds the `variables` bucket
(`variables` is a reserved word in Lean); `processingTime` embeds
`processing_time`, with reads of the external wall clock as 0. -/
structure DependencyMap where
  vars : List (String × EntryDetails)
  classes : List (String × EntryDetails)
  imports : List (String × EntryDetails)
  functions : List (String × EntryDetails)
  confidence : PyFloat
  processingTime : PyFloat
  error : Option String
deriving DecidableEq

/-- `AgentResult` (pydantic model, base_agent.py lines 56-67).  `data` holds
the dict form of a `DependencyMap`; the free-form `metadata` dict is not
consulted by any claim and is elided. -/
structure AgentResult where
  success : Bool
  data : DependencyMap
  confidence : PyFloat
  processingTime : PyFloat
  error : Option String
deriving DecidableEq

/-- `Snippet` dataclass (base_agent.py lines 25-38). -/
structure Snippet where
  content : String
  index : Int
deriving DecidableEq

/-! ## Precision Filter

Embeds `src/src/snippets/agents/precision_filter.py`.  The
`locally_defined_names` set is produced by `_extract_local_definitions`,
which walks the tree returned by Python's `ast.parse` (an external parser),
so it enters the embedding as the `localDefinitions` parameter. -/

/-- `PrecisionFilter._load_python_builtins` (lines 39-60). -/
def builtinNames : List String :=
  ["abs", "all", "any", "ascii", "bin", "bool", "bytearray", "bytes",
   "callable", "chr", "classmethod", "compile", "complex", "delattr",
   "dict", "dir", "divmod", "enumerate", "eval", "exec", "filter",
   "float", "format", "frozenset", "getattr", "globals", "hasattr",
   "hash", "help", "hex", "id", "input", "int", "isinstance",
   "issubclass", "iter", "len", "list", "locals", "map", "max",
   "memoryview", "min", "next", "object", "oct", "open", "ord",
   "pow", "print", "property", "range", "repr", "reversed", "round",
   "set", "setattr", "slice", "sorted", "staticmethod", "str", "sum",
   "super", "tuple", "type", "vars", "zip",
   "Exception", "ValueError", "TypeError", "KeyError", "IndexError",
   "AttributeError", "ImportError", "RuntimeError", "StopIteration",
   "True", "False", "None", "__name__", "__main__", "__debug__"]

/-- `common_patterns["dunder_methods"]` (line 68). -/
def dunderMethods : List String :=
  ["__init__", "__str__", "__repr__", "__len__", "__iter__"]

/-- `FilterRule` dataclass (lines 19-26); descriptions kept short. -/
structure FilterRule where
  name : String
  description : String
  confidenceThreshold : PyFloat
  appliesTo : List String
  enabled : Bool
deriving DecidableEq

/-- `PrecisionFilter._initialize_filter_rules` (lines 72-111), in order. -/
def filterRules : List FilterRule :=
  [⟨"builtin_filter", "Filtra nombres built-in de Python", pyf 0 1,
    ["variables", "functions"], true⟩,
   ⟨"single_letter_variables", "Filtra variables de una sola letra", pyf 7 10,
    ["variables"], true⟩,
   ⟨"dunder_methods", "Filtra metodos dunder comunes", pyf 8 10,
    ["functions"], true⟩,
   ⟨"self_parameter", "Filtra parametro self de metodos", pyf 0 1,
    ["variables"], true⟩,
   ⟨"local_definitions", "Filtra definiciones del mismo snippet", pyf 9 10,
    ["variables", "functions", "classes"], true⟩,
   ⟨"low_confidence", "Filtra dependencias con confianza muy baja", pyf 3 10,
    ["variables", "classes", "imports", "functions"], true⟩]

/-- `PrecisionFilter._apply_filter_rule` (lines 203-243).  The
`snippet_content` argument is received but never consulted there, exactly as
in the source. -/
def applyFilterRule (rule : FilterRule) (name : String) (details : EntryDetails)
    (category : String) (_snippetContent : String)
    (localDefinitions : List String) : Bool × String :=
  let confidence := details.confidence.getD (pyf 1 2)
  if rule.name = "builtin_filter" then
    if name ∈ builtinNames then (true, "Built-in Python name") else (false, "")
  else if rule.name = "single_letter_variables" then
    if category = "variables" ∧ name.length = 1 ∧
        pyfLt confidence rule.confidenceThreshold = true then
      (true, "Single letter variable with low confidence")
    else (false, "")
  else if rule.name = "dunder_methods" then
    if category = "functions" ∧ pyStartsWith name "__" = true ∧
        pyEndsWith name "__" = true ∧ name ∈ dunderMethods ∧
        pyfLt confidence rule.confidenceThreshold = true then
      (true, "Common dunder method with low confidence")
    else (false, "")
  else if rule.name = "self_parameter" then
    if category = "variables" ∧ name = "self" then
      (true, "Method self parameter")
    else (false, "")
  else if rule.name = "local_definitions" then
    if name ∈ localDefinitions ∧ pyfLt rule.confidenceThreshold confidence = true then
      (true, "Defined locally in same snippet")
    else (false, "")
  else if rule.name = "low_confidence" then
    if pyfLt confidence rule.confidenceThreshold = true then
      (true, "Confidence too low")
    else (false, "")
  else (false, "")

/-- The per-entry rule loop of `PrecisionFilter._filter_category`
(lines 177-199): rules are tried in order, skipping disabled or inapplicable
ones; the first rule that fires removes the entry. -/
def categoryKeep (rules : List FilterRule) (name : String) (details : EntryDetails)
    (category : String) (snippetContent : String)
    (localDefinitions : List String) : Bool :=
  match rules with
  | [] => true
  | rule :: rest =>
    if rule.enabled = true ∧ category ∈ rule.appliesTo then
      if (applyFilterRule rule name details category snippetContent localDefinitions).1 then
        false
      else categoryKeep rest name details category snippetContent localDefinitions
    else categoryKeep rest name details category snippetContent localDefinitions

/-- `PrecisionFilter._filter_category` (lines 169-201): surviving entries keep
the same details object. -/
def filterCategory (items : List (String × EntryDetails)) (category : String)
    (snippetContent : String) (localDefinitions : List String) :
    List (String × EntryDetails) :=
  items.filter (fun it =>
    categoryKeep filterRules it.1 it.2 category snippetContent localDefinitions)

/-- `PrecisionFilter.filter_dependencies` (lines 113-167).  Note the source
builds the filtered map with `DependencyMap(...)` without copying
`processing_time`, so that field resets to its default 0. -/
def filterDependencies (dependencyMap : DependencyMap) (snippetContent : String)
    (localDefinitions : List String) : DependencyMap :=
  let vars := filterCategory dependencyMap.vars "variables" snippetContent localDefinitions
  let classes := filterCategory dependencyMap.classes "classes" snippetContent localDefinitions
  let imports := filterCategory dependencyMap.imports "imports" snippetContent localDefinitions
  let functions := filterCategory dependencyMap.functions "functions" snippetContent localDefinitions
  let originalCount := dependencyMap.vars.length + dependencyMap.classes.length +
    dependencyMap.imports.length + dependencyMap.functions.length
  let filteredCount := vars.length + classes.length + imports.length + functions.length
  let confidence :=
    if 0 < originalCount ∧
        pyfLt (pyfDiv (pyfOfNat filteredCount) (pyfOfNat originalCount)) (pyf 7 10) = true then
      pyfMin (pyf 1 1) (pyfAdd dependencyMap.confidence (pyf 1 10))
    else dependencyMap.confidence
  ⟨vars, classes, imports, functions, confidence, pyf 0 1, dependencyMap.error⟩

/-! ## Character-list matching primitives

The Context Builder's deny-list (`ContextBuilder.DANGEROUS_PATTERNS`,
`src/src/snippets/agents/context_builder.py` lines 47-58) is a list of ten
fixed regular expressions searched with `re.search(..., re.IGNORECASE)`.
Each is compiled here by hand into an executable matcher over the lowercased
character list of the text.  `quoteChar` and `apostropheChar` are the two
quote characters of the `open(...)` patterns. -/

def apostropheChar : Char := Char.ofNat 39

def quoteChar : Char := Char.ofNat 34

/-- `\w` of Python regexes (ASCII view): letter, digit or underscore. -/
def isWordChar (c : Char) : Bool := c.isAlphanum || c = '_'

/-- Zero or more whitespace characters followed by `target`: the `\s*X` tail
of several deny-list patterns. -/
def wsThenChar (target : Char) : List Char → Bool
  | [] => false
  | c :: cs => if c = target then true else if c.isWhitespace then wsThenChar target cs else false

/-- The literal `lit` occurs here, followed by a suffix satisfying `cond`. -/
def litFollowedBy (lit : List Char) (cond : List Char → Bool) (s : List Char) : Bool :=
  lit.isPrefixOf s && cond (s.drop lit.length)

/-- `re.search`: some suffix of the text satisfies `p`. -/
def searchFrom (p : List Char → Bool) : List Char → Bool
  | [] => p []
  | c :: cs => p (c :: cs) || searchFrom p cs

/-- `re.search` for a pattern starting with a word boundary (`\bX...`): the
occurrence is at the start of the text or right after a non-word character. -/
def searchWithBoundary (lit : List Char) (cond : List Char → Bool) (s : List Char) : Bool :=
  litFollowedBy lit cond s || searchBoundaryAux lit cond s
where
  searchBoundaryAux (lit : List Char) (cond : List Char → Bool) : List Char → Bool
    | [] => false
    | c :: cs => (!isWordChar c && litFollowedBy lit cond cs) ||
        searchBoundaryAux lit cond cs

/-- `['\"]m['\"]` at the head: a quote, the mode character, a quote. -/
def quoteModeQuote (mode : Char) : List Char → Bool
  | q1 :: c :: q2 :: _ =>
    (q1 = apostropheChar || q1 = quoteChar) && c = mode &&
    (q2 = apostropheChar || q2 = quoteChar)
  | _ => false

/-- After the literal `open`: `\s*\(` and then, within the maximal run of
non-`)` characters (the regex's `[^)]*`), a quoted mode character. -/
def openModeTail (mode : Char) : List Char → Bool
  | [] => false
  | c :: cs =>
    if c = '(' then searchFrom (quoteModeQuote mode) (cs.takeWhile (fun d => d ≠ ')'))
    else if c.isWhitespace then openModeTail mode cs
    else false

/-- The literal `lit` occurs as a plain substring (`re.search` with a
literal-only pattern). -/
def containsLit (lit : String) (s : List Char) : Bool :=
  searchFrom (fun t => lit.data.isPrefixOf t) s

/-! ## Context Builder

Embeds `src/src/snippets/agents/context_builder.py`: the `BuiltContext`
model, the safety deny-list, and the heuristic assembly
`_build_context_heuristic` (lines 232-315).  Syntactic validation calls
Python's `ast.parse` and the mechanical repair `_fix_common_syntax_issues`
calls `re.sub`; both are external engines and enter as the parameters
`pyParses` and `fixCommonIssues`. -/

/-- `BuiltContext` (pydantic model, lines 28-38).  `syntacticValid` embeds
the source field `syntax_valid`. -/
structure BuiltContext where
  contextCode : String
  dependenciesIncluded : List String
  optimizationApplied : Bool
  linesCount : Nat
  safetyValidated : Bool
  syntacticValid : Bool
deriving DecidableEq

/-- The ten deny-list matchers in source order, each labeled.  Labels 6 and 7
stand for the two `open(...)` mode patterns, whose regex text contains quote
characters; the remaining labels are the regex texts themselves. -/
def dangerousPatterns : List (String × (List Char → Bool)) :=
  [("os\\.system", containsLit "os.system"),
   ("subprocess\\.", containsLit "subprocess."),
   ("\\beval\\s*\\(", searchWithBoundary "eval".data (wsThenChar '(')),
   ("\\bexec\\s*\\(", searchWithBoundary "exec".data (wsThenChar '(')),
   ("__import__", containsLit "__import__"),
   ("open-write-mode", searchFrom (litFollowedBy "open".data (openModeTail 'w'))),
   ("open-append-mode", searchFrom (litFollowedBy "open".data (openModeTail 'a'))),
   ("shutil\\.", containsLit "shutil."),
   ("rmtree", containsLit "rmtree"),
   ("remove\\s*\\(", searchFrom (litFollowedBy "remove".data (wsThenChar '(')))]

/-- `ContextBuilder._validate_context_safety` (lines 115-132): the problem
list, one entry per matching deny-list pattern; `re.IGNORECASE` is embedded
by matching on the lowercased text. -/
def dangerousProblems (contextCode : String) : List String :=
  (dangerousPatterns.filter (fun p => p.2 (pyLower contextCode).data)).map
    (fun p => "Dangerous pattern detected: " ++ p.1)

/-- `ContextBuilder._extract_minimal_definition` (lines 150-180). -/
def extractMinimalDefinition (fullDefinition neededName : String) : String :=
  let lines := pySplitNewlines (pyStrip fullDefinition)
  match lines.find? (fun line => pyStartsWith (pyStrip line) (neededName ++ " =")) with
  | some line => pyStrip line
  | none =>
    if lines.any (fun line => pyStartsWith (pyStrip line) "def " ||
        pyStartsWith (pyStrip line) "class ") then
      fullDefinition
    else
      match lines.find? (fun line =>
          pyStrip line ≠ "" && !pyStartsWith (pyStrip line) "#" &&
          containsLit neededName (pyStrip line).data) with
      | some line => pyStrip line
      | none => fullDefinition

/-- The `type_mapping` table of `_generate_realistic_value` (lines 195-202). -/
def typeMapping : List (String × String) :=
  [("list", "[1, 2, 3]"), ("str", "\"sample_text\""), ("int", "42"),
   ("float", "3.14"), ("bool", "True"), ("dict", "\x7b\"key\": \"value\"\x7d")]

/-- The `contextual_values` table of `_generate_realistic_value`
(lines 205-220). -/
def contextualValues : List (String × String) :=
  [("name", "\"John Doe\""), ("nombre", "\"Juan Pérez\""), ("age", "25"),
   ("edad", "25"), ("price", "99.99"), ("precio", "99.99"),
   ("active", "True"), ("activo", "True"), ("count", "10"),
   ("contador", "10"), ("lista", "[1, 2, 3, 4, 5]"),
   ("items", "[\"item1\", \"item2\", \"item3\"]"),
   ("data", "\x7b\"id\": 1, \"value\": \"example\"\x7d"),
   ("config", "\x7b\"debug\": True, \"timeout\": 30\x7d")]

/-- `ContextBuilder._generate_realistic_value` (lines 182-230): contextual
value by lowercased name first, then by type, defaulting to `42`. -/
def generateRealisticValue (varName varType : String) : String :=
  let varLower := pyLower varName
  let value :=
    match contextualValues.lookup varLower with
    | some v => v
    | none => (typeMapping.lookup varType).getD "42"
  varName ++ " = " ++ value

/-- The variables step of `_build_context_heuristic` (lines 261-275) for one
entry: a non-empty `definition` is minimized, otherwise a realistic value is
generated from the `type` hint (absent = `"unknown"`). -/
def variableLine (varName : String) (varInfo : EntryDetails) : String :=
  let definition := varInfo.definition.getD ""
  if definition ≠ "" then extractMinimalDefinition definition varName
  else generateRealisticValue varName (varInfo.typeHint.getD "unknown")

/-- The imports loop of `_build_context_heuristic` (lines 253-258): each
entry's `import_statement` (default `import <name>`) is appended only when
not already present in `context_lines`; the `dependencies_included` tag is
appended under the same guard. -/
def importsPhase : List (String × EntryDetails) → List String → List String →
    List String × List String
  | [], contextLines, included => (contextLines, included)
  | (importName, importInfo) :: rest, contextLines, included =>
    let importStatement := importInfo.importStatement.getD ("import " ++ importName)
    if importStatement ∈ contextLines then importsPhase rest contextLines included
    else importsPhase rest (contextLines ++ [importStatement])
      (included ++ ["import:" ++ importName])

/-- The variables loop of `_build_context_heuristic` (lines 261-275): every
entry contributes a line, with no duplicate check. -/
def varsPhase : List (String × EntryDetails) → List String → List String →
    List String × List String
  | [], contextLines, included => (contextLines, included)
  | (varName, varInfo) :: rest, contextLines, included =>
    varsPhase rest (contextLines ++ [variableLine varName varInfo])
      (included ++ ["variable:" ++ varName])

/-- The functions and classes loops of `_build_context_heuristic`
(lines 278-291): entries with a non-empty `definition` contribute it
verbatim, with no duplicate check; `tag` is `function` or `class`. -/
def defsPhase (tag : String) : List (String × EntryDetails) → List String → List String →
    List String × List String
  | [], contextLines, included => (contextLines, included)
  | (defName, defInfo) :: rest, contextLines, included =>
    let definition := defInfo.definition.getD ""
    if definition ≠ "" then
      defsPhase tag rest (contextLines ++ [definition])
        (included ++ [tag ++ ":" ++ defName])
    else defsPhase tag rest contextLines included

/-- The full assembly order of `_build_context_heuristic`: imports →
variables → functions → classes, returning `(context_lines,
dependencies_included)`. -/
def buildContextLines (dependencies : DependencyMap) : List String × List String :=
  let afterImports := importsPhase dependencies.imports [] []
  let afterVars := varsPhase dependencies.vars afterImports.1 afterImports.2
  let afterFuncs := defsPhase "function" dependencies.functions afterVars.1 afterVars.2
  defsPhase "class" dependencies.classes afterFuncs.1 afterFuncs.2

/-- `'\n\n'.join(context_lines) if context_lines else ""` (line 293). -/
def joinContextLines (contextLines : List String) : String :=
  if contextLines = [] then "" else joinWith "\n\n" contextLines

/-- `ContextBuilder._build_context_heuristic` (lines 232-315).  `pyParses`
stands for `ast.parse` succeeding (`_validate_context_syntax`), and
`fixCommonIssues` for the regex repairs of `_fix_common_syntax_issues`.
When the safety gate fires the code is replaced by the inert placeholder and
the syntax flag keeps the value computed for the original assembly, exactly
as in the source. -/
def buildContextHeuristic (pyParses : String → Bool) (fixCommonIssues : String → String)
    (dependencies : DependencyMap) : BuiltContext :=
  let assembled := buildContextLines dependencies
  let contextCode := joinContextLines assembled.1
  let safetyValid := (dangerousProblems contextCode).isEmpty
  let syntaxOk := pyParses contextCode
  if safetyValid = false then
    ⟨"# Context removed due to safety concerns", assembled.2, true,
     assembled.1.length, safetyValid, syntaxOk⟩
  else if syntaxOk = false then
    let fixedCode := fixCommonIssues contextCode
    ⟨fixedCode, assembled.2, true, assembled.1.length, safetyValid, pyParses fixedCode⟩
  else
    ⟨contextCode, assembled.2, true, assembled.1.length, safetyValid, syntaxOk⟩

/-! ## Oracle Client

Embeds `GroqLLMClient` from `src/src/snippets/agents/llm_client.py`.  The
session counters and the on-disk response cache become an explicit
`ClientState`; the network call `_make_groq_request` is external and enters
as an `Except String OracleResponse` parameter (error = the exception after
tenacity's retries); `time.time()` reads are 0.

`_generate_cache_key` (lines 100-120) computes
`md5(json.dumps({prompt, model, temperature, max_tokens, **kwargs},
sort_keys=True))`; `generate` passes `system=system_message` in `kwargs`
(line 266).  `json.dumps` with sorted keys is an injective encoding of this
record and md5 is a fixed digest of the encoded string, so the key is
embedded as the record itself: equal records give equal digests, and the
digests of distinct records are distinct short of an md5 collision. -/

/-- `LLMConfig` dataclass (lines 30-40). -/
structure LLMConfig where
  model : String
  temperature : PyFloat
  maxTokens : Nat
  timeout : PyFloat
  maxRetries : Nat
  cacheEnabled : Bool
  cacheDir : String
  maxCostPerSession : PyFloat
deriving DecidableEq

/-- The defaults of `LLMConfig`. -/
def defaultLLMConfig : LLMConfig :=
  ⟨"llama-3.1-8b-instant", pyf 1 10, 1000, pyf 30 1, 3, true, ".agent_cache", pyf 5 1⟩

/-- `TokenUsage` (pydantic model, lines 43-48). -/
structure TokenUsage where
  promptTokens : Nat
  completionTokens : Nat
  totalTokens : Nat
  estimatedCost : PyFloat
deriving DecidableEq

/-- `LLMResponse` (pydantic model, lines 51-60). -/
structure LLMResponse where
  content : String
  usage : TokenUsage
  model : String
  cached : Bool
  processingTime : PyFloat
deriving DecidableEq

/-- The content of the `cache_data` dict hashed by `_generate_cache_key`:
the prompt, the configured model / temperature / max_tokens, and the
`system=system_message` keyword forwarded by `generate`. -/
structure CacheKey where
  prompt : String
  model : String
  temperature : PyFloat
  maxTokens : Nat
  system : Option String
deriving DecidableEq

/-- `GroqLLMClient._generate_cache_key` as called from `generate`
(line 266). -/
def generateCacheKey (config : LLMConfig) (prompt : String)
    (systemMessage : Option String) : CacheKey :=
  ⟨prompt, config.model, config.temperature, config.maxTokens, systemMessage⟩

/-- One cache file's payload (`_save_to_cache`, lines 308-312):
`{content, usage, model}`. -/
structure CacheEntry where
  content : String
  usage : TokenUsage
  model : String
deriving DecidableEq

/-- The client's mutable state: session counters plus the cache directory
contents (one entry per key; a fresh write shadows an older one). -/
structure ClientState where
  sessionCost : PyFloat
  sessionRequests : Nat
  cache : List (CacheKey × CacheEntry)
deriving DecidableEq

/-- `GroqLLMClient.PRICING` (lines 69-72), dollars per 1K tokens. -/
def pricing : List (String × PyFloat) :=
  [("llama-3.1-70b-versatile", pyf 2 10000), ("llama-3.1-8b-instant", pyf 1 10000)]

/-- The raw response of `_make_groq_request` (lines 234-242). -/
structure OracleResponse where
  content : String
  promptTokens : Nat
  completionTokens : Nat
  totalTokens : Nat
  model : String
deriving DecidableEq

/-- The exceptions `generate` can raise: the `ValueError` of the cost
precondition (line 284) or the propagated request failure (line 320).  The
source's cost message also interpolates the configured dollar ceiling, whose
float formatting is elided here. -/
inductive GenError where
  | costLimit
  | requestFailed (message : String)
deriving DecidableEq

/-- `GroqLLMClient._calculate_cost` (lines 168-180); `round(cost, 6)` on the
float is elided, the rational is exact. -/
def calculateCost (config : LLMConfig) (totalTokens : Nat) : PyFloat :=
  pyfMul (pyfDiv (pyfOfNat totalTokens) (pyfOfNat 1000))
    ((pricing.lookup config.model).getD (pyf 2 10000))

/-- `GroqLLMClient._check_cost_limit` (lines 182-195): true when the session
cost plus the estimate stays within the ceiling. -/
def checkCostLimit (config : LLMConfig) (st : ClientState) (estimatedCost : PyFloat) : Bool :=
  !(pyfLt config.maxCostPerSession (pyfAdd st.sessionCost estimatedCost))

/-- `GroqLLMClient.generate` (lines 248-320): cache probe, cost
precondition, network call, counter update and cache write. -/
def generate (config : LLMConfig) (st : ClientState)
    (oracle : Except String OracleResponse)
    (prompt : String) (systemMessage : Option String) :
    Except GenError LLMResponse × ClientState :=
  let cacheKey := generateCacheKey config prompt systemMessage
  let cachedData := if config.cacheEnabled then st.cache.lookup cacheKey else none
  match cachedData with
  | some entry => (.ok ⟨entry.content, entry.usage, entry.model, true, pyf 0 1⟩, st)
  | none =>
    let estimatedTokens := pyfMul (pyfOfNat (countWords prompt)) (pyf 3 2)
    let estimatedCost := pyfMul (pyfDiv estimatedTokens (pyfOfNat 1000))
      ((pricing.lookup config.model).getD (pyf 2 10000))
    if checkCostLimit config st estimatedCost = false then (.error .costLimit, st)
    else
      match oracle with
      | .error e => (.error (.requestFailed e), st)
      | .ok resp =>
        let usage : TokenUsage :=
          ⟨resp.promptTokens, resp.completionTokens, resp.totalTokens,
           calculateCost config resp.totalTokens⟩
        let newState : ClientState :=
          ⟨pyfAdd st.sessionCost usage.estimatedCost, st.sessionRequests + 1,
           (cacheKey, ⟨resp.content, usage, resp.model⟩) :: st.cache⟩
        (.ok ⟨resp.content, usage, resp.model, false, pyf 0 1⟩, newState)

/-! ## Python syntax trees for the AST fallback

`ContextAnalyzer._analyze_with_ast_fallback` (context_analyzer.py lines
222-278) walks the tree returned by `ast.parse(snippet.content)` and sorts
`ast.Name` nodes by their `Load`/`Store` context, plus `FunctionDef` and
`ClassDef` names.  The external parse enters the embedding as an
`Option (List PyNode)` (the module body; `none` = the parse raised).  The
node type covers the constructors the walk distinguishes; `nameLoad` /
`nameStore` embed `ast.Name` with `Load` / `Store` context.  `ast.walk`
visits every node breadth-first; the collectors below visit the same node
set recursively, which yields the same name sets. -/

inductive PyNode where
  | nameLoad (id : String)
  | nameStore (id : String)
  | functionDef (name : String) (body : List PyNode)
  | classDef (name : String) (body : List PyNode)
  | importNode (names : List String)
  | importFrom (module : String) (names : List String)
  | assign (targets : List PyNode) (value : PyNode)
  | attribute (value : PyNode) (attr : String)
  | call (func : PyNode) (args : List PyNode)
  | exprStmt (value : PyNode)
  | constant

mutual

/-- All `ast.Name`-with-`Load`-context identifiers in a tree (the `used_names`
set of the fallback, lines 242-243). -/
def usedNamesNode : PyNode → List String
  | .nameLoad i => [i]
  | .nameStore _ => []
  | .functionDef _ body => usedNamesList body
  | .classDef _ body => usedNamesList body
  | .importNode _ => []
  | .importFrom _ _ => []
  | .assign targets value => usedNamesList targets ++ usedNamesNode value
  | .attribute value _ => usedNamesNode value
  | .call func args => usedNamesNode func ++ usedNamesList args
  | .exprStmt value => usedNamesNode value
  | .constant => []

/-- `usedNamesNode` over a node list. -/
def usedNamesList : List PyNode → List String
  | [] => []
  | n :: rest => usedNamesNode n ++ usedNamesList rest

end

mutual

/-- The `defined_names` set of the fallback (lines 245-250): `ast.Name` with
`Store` context, `FunctionDef` names and `ClassDef` names.  Note the walk
does NOT record `Import`/`ImportFrom` bindings. -/
def definedNamesNode : PyNode → List String
  | .nameLoad _ => []
  | .nameStore i => [i]
  | .functionDef name body => name :: definedNamesList body
  | .classDef name body => name :: definedNamesList body
  | .importNode _ => []
  | .importFrom _ _ => []
  | .assign targets value => definedNamesList targets ++ definedNamesNode value
  | .attribute value _ => definedNamesNode value
  | .call func args => definedNamesNode func ++ definedNamesList args
  | .exprStmt value => definedNamesNode value
  | .constant => []

/-- `definedNamesNode` over a node list. -/
def definedNamesList : List PyNode → List String
  | [] => []
  | n :: rest => definedNamesNode n ++ definedNamesList rest

end

/-- The fixed built-in allow-list subtracted by the fallback (line 253). -/
def astFallbackAllowList : List String :=
  ["print", "len", "range", "str", "int", "float", "list", "dict"]

/-- `ContextAnalyzer._analyze_with_ast_fallback` (lines 222-278).  `tree` is
the `ast.parse` result for the snippet (`none` = parse failure).  Python's
`used_names` set iterates in unspecified order; `List.dedup` fixes one
order for the embedding. -/
def analyzeWithAstFallback (tree : Option (List PyNode)) : DependencyMap :=
  match tree with
  | none => ⟨[], [], [], [], pyf 0 1, pyf 0 1, some "Both LLM and AST analysis failed"⟩
  | some body =>
    let usedNames := (usedNamesList body).dedup
    let definedNames := definedNamesList body
    let undefinedVars := usedNames.filter
      (fun v => v ∉ definedNames ∧ v ∉ astFallbackAllowList)
    let vars := undefinedVars.map (fun v =>
      (v, (⟨some (pyf 3 10), some ("# Unknown definition for: " ++ v),
           some "unknown", none, none⟩ : EntryDetails)))
    ⟨vars, [], [], [], pyf 3 10, pyf 0 1, some "LLM failed, using AST fallback"⟩

/-! ## Parsing the oracle response into a `DependencyMap`

`ContextAnalyzer._parse_llm_response` (lines 159-220) feeds the raw text to
the CORE `RobustJSONParser` and then normalizes the decoded dict: each
bucket is read under its primary key or a `*_dependencies` alias, a
list-shaped bucket is converted to entry dicts with confidence 0.7, and the
aggregate confidence is read under three aliases with default 0.5.  The
decoded dict enters as `Except String ParsedJson` (error = the parser's
`ValueError`; its regex/JSON internals are treated above in `coreParse`). -/

/-- A decoded bucket value: a dict of entries or a bare list of names. -/
inductive BucketJson where
  | dictVal (entries : List (String × EntryDetails))
  | listVal (names : List String)
deriving DecidableEq

/-- The decoded oracle dict as `_parse_llm_response` consumes it: each field
`none` when the key is absent. -/
structure ParsedJson where
  variablesKey : Option BucketJson
  variableDependencies : Option BucketJson
  classesKey : Option BucketJson
  classDependencies : Option BucketJson
  importsKey : Option BucketJson
  importDependencies : Option BucketJson
  functionsKey : Option BucketJson
  functionDependencies : Option BucketJson
  confidenceKey : Option PyFloat
  overallConfidence : Option PyFloat
  analysisConfidence : Option PyFloat
deriving DecidableEq

/-- `parsed.get(primary, parsed.get(alias, {}))` for a bucket. -/
def bucketGet (primary aliasKey : Option BucketJson) : BucketJson :=
  match primary with
  | some b => b
  | none => aliasKey.getD (.dictVal [])

/-- The list-to-dict conversion of `_parse_llm_response` (lines 188-195):
a bare name list becomes entries `{confidence: 0.7, type: defaultType}`. -/
def normalizeBucket (b : BucketJson) (defaultType : String) :
    List (String × EntryDetails) :=
  match b with
  | .dictVal entries => entries
  | .listVal names => names.map (fun n =>
      (n, (⟨some (pyf 7 10), none, some defaultType, none, none⟩ : EntryDetails)))

/-- `ContextAnalyzer._parse_llm_response` (lines 159-220) given the core
parser's outcome on the response text. -/
def parseLLMResponse (parsed : Except String ParsedJson) : DependencyMap :=
  match parsed with
  | .error e =>
    ⟨[], [], [], [], pyf 0 1, pyf 0 1, some ("Robust JSON parsing failed: " ++ e)⟩
  | .ok p =>
    let confidence :=
      p.confidenceKey.getD (p.overallConfidence.getD
        (p.analysisConfidence.getD (pyf 1 2)))
    ⟨normalizeBucket (bucketGet p.variablesKey p.variableDependencies) "unknown",
     normalizeBucket (bucketGet p.classesKey p.classDependencies) "unknown",
     normalizeBucket (bucketGet p.importsKey p.importDependencies) "module",
     normalizeBucket (bucketGet p.functionsKey p.functionDependencies) "function",
     confidence, pyf 0 1, none⟩

/-! ## Dependency Analyzer

Embeds `ContextAnalyzer.analyze` (context_analyzer.py lines 280-373)
together with its helpers `_extract_context_snippets`,
`_format_context_for_llm` and the prompt assembly.  The prompt template is
loaded from an external file (`_load_prompt_template`), so it enters as a
parameter; `str.format` is embedded as placeholder replacement.  The
`asyncio` timeout/backoff of `_with_timeout_and_retry` has no observable
effect in the embedding beyond its control flow: a failing awaited call is
re-raised as the aggregated `All N attempts failed` exception. -/

/-- One element of `_extract_context_snippets` (lines 99-129). -/
structure ContextSnippet where
  index : Int
  content : String
  relativePosition : Int
  isTarget : Bool
deriving DecidableEq

/-- `ContextAnalyzer._extract_context_snippets` (lines 99-129). -/
def extractContextSnippets (allSnippets : List Snippet) (targetIndex : Nat)
    (windowSize : Int) : List ContextSnippet :=
  let windowIndices := calculateWindowIndices targetIndex allSnippets.length windowSize
  windowIndices.filterMap (fun idx =>
    match allSnippets[idx.toNat]? with
    | some snippet => some ⟨idx, snippet.content, idx - (targetIndex : Int),
        idx = (targetIndex : Int)⟩
    | none => none)

/-- The `f"({relative_pos:+d})"` marker of `_format_context_for_llm`
(line 149). -/
def relativeMarker (relativePos : Int) : String :=
  if relativePos ≥ 0 then "(+" ++ toString relativePos ++ ")"
  else "(" ++ toString relativePos ++ ")"

/-- `ContextAnalyzer._format_context_for_llm` (lines 131-157). -/
def formatContextForLLM (contextSnippets : List ContextSnippet) : String :=
  let formattedLines := contextSnippets.flatMap (fun snippetData =>
    let marker := if snippetData.isTarget then ">>> TARGET <<<"
      else relativeMarker snippetData.relativePosition
    ["## Snippet " ++ toString snippetData.index ++ " " ++ marker,
     "```python", pyStrip snippetData.content, "```", ""])
  joinWith "\n" formattedLines

/-- The prompt of `analyze` (lines 316-319):
`template.format(target_snippet=..., context_snippets=...)`. -/
def analyzePrompt (promptTemplate : String) (snippet : Snippet)
    (allSnippets : List Snippet) (targetIndex : Nat) (windowSize : Int) : String :=
  let formattedContext :=
    formatContextForLLM (extractContextSnippets allSnippets targetIndex windowSize)
  pyReplace (pyReplace promptTemplate "{target_snippet}" snippet.content)
    "{context_snippets}" formattedContext

/-- The system message passed to the Oracle Client (line 326). -/
def analyzerSystemMessage : String :=
  "You are an expert Python code analyzer focused on dependency detection."

/-- The error text of a `GenError` (the cost message's dollar interpolation
elided). -/
def renderGenError : GenError → String
  | .costLimit => "Request would exceed cost limit"
  | .requestFailed message => message

/-- `BaseAgent._with_timeout_and_retry` (base_agent.py lines 145-175) as it
acts on the single awaited `generate` call: a success passes through, any
failure becomes the aggregated exception naming the last error. -/
def withTimeoutAndRetry (maxRetries : Nat) (r : Except GenError LLMResponse) :
    Except String LLMResponse :=
  match r with
  | .ok v => .ok v
  | .error e => .error ("All " ++ toString maxRetries ++
      " attempts failed. Last error: " ++ renderGenError e)

/-- `BaseAgent._validate_inputs` (base_agent.py lines 177-214); the
`isinstance` checks hold by typing, index non-negativity by `Nat`.  Returns
the `ValueError` message, `none` when validation passes. -/
def validateInputs (snippet : Snippet) (allSnippets : List Snippet)
    (snippetIndex : Nat) : Option String :=
  match allSnippets[snippetIndex]? with
  | none => some "snippet_index out of range"
  | some s => if s.index = snippet.index then none else some "Snippet index mismatch"

/-- `BaseAgent._create_fallback_result` (base_agent.py lines 216-233). -/
def createFallbackResult (errorMsg : String) : AgentResult :=
  ⟨false, ⟨[], [], [], [], pyf 0 1, pyf 0 1, none⟩, pyf 0 1, pyf 0 1, some errorMsg⟩

/-- `dependency_map.processing_time = llm_analysis.processing_time`
(line 332). -/
def setProcessingTime (m : DependencyMap) (t : PyFloat) : DependencyMap :=
  ⟨m.vars, m.classes, m.imports, m.functions, m.confidence, t, m.error⟩

/-- `ContextAnalyzer.analyze` (lines 280-373).  Parameters standing for the
environment: `promptTemplate` (external template file), `parseResponse` (the
core `RobustJSONParser` on the response text, as consumed by
`_parse_llm_response`), `tree` (`ast.parse` of the target snippet's content,
for the fallback), `oracle` (the network).  Returns the `AgentResult` and
the Oracle Client state after the call.  Note the inner `except` (lines
352-369) turns EVERY failure of the LLM path — including the cost-limit
`ValueError` — into the AST fallback with `success=True`. -/
def analyzeModel (config : LLMConfig) (windowSize : Int) (promptTemplate : String)
    (parseResponse : String → Except String ParsedJson)
    (tree : Option (List PyNode)) (st : ClientState)
    (oracle : Except String OracleResponse)
    (snippet : Snippet) (allSnippets : List Snippet) (snippetIndex : Nat) :
    AgentResult × ClientState :=
  match validateInputs snippet allSnippets snippetIndex with
  | some e => (createFallbackResult e, st)
  | none =>
    let prompt := analyzePrompt promptTemplate snippet allSnippets snippetIndex windowSize
    let generated := generate config st oracle prompt (some analyzerSystemMessage)
    match withTimeoutAndRetry 3 generated.1 with
    | .ok llmAnalysis =>
      let dependencyMap :=
        setProcessingTime (parseLLMResponse (parseResponse llmAnalysis.content))
          llmAnalysis.processingTime
      if pyfLt (pyf 1 2) dependencyMap.confidence = true then
        (⟨true, dependencyMap, dependencyMap.confidence,
          llmAnalysis.processingTime, none⟩, generated.2)
      else
        let fallbackMap := analyzeWithAstFallback tree
        (⟨true, fallbackMap, fallbackMap.confidence, pyf 0 1,
          some "LLM failed: Low confidence LLM analysis, using fallback"⟩, generated.2)
    | .error e =>
      let fallbackMap := analyzeWithAstFallback tree
      (⟨true, fallbackMap, fallbackMap.confidence, pyf 0 1,
        some ("LLM failed: " ++ e)⟩, generated.2)

/-! ## Concrete inputs used by witnesses and counterexamples -/

/-- A variables-only map whose single definition mentions `os.system`. -/
def dangerousVarsMap : DependencyMap :=
  ⟨[("x", ⟨none, some "x = os.system", none, none, none⟩)], [], [], [],
   pyf 1 2, pyf 0 1, none⟩

/-- Two variable entries sharing one identical definition line. -/
def dupVarsMap : DependencyMap :=
  ⟨[("x", ⟨none, some "a = 1", none, none, none⟩),
    ("y", ⟨none, some "a = 1", none, none, none⟩)], [], [], [],
   pyf 1 2, pyf 0 1, none⟩

/-- An imports-bucket entry named after the built-in `len`. -/
def builtinImportMap : DependencyMap :=
  ⟨[], [], [("len", ⟨some (pyf 4 5), none, none, none, none⟩)], [],
   pyf 1 2, pyf 0 1, none⟩

/-- A high-confidence, non-noisy variable entry. -/
def survivorDetails : EntryDetails := ⟨some (pyf 9 10), none, none, none, none⟩

/-- A map holding only the `survivorDetails` variable entry. -/
def survivorMap : DependencyMap :=
  ⟨[("user_data", survivorDetails)], [], [], [], pyf 7 10, pyf 0 1, none⟩

/-- A cached oracle answer. -/
def hitEntry : CacheEntry := ⟨"cached text", ⟨1, 2, 3, pyf 0 1⟩, "llama-3.1-8b-instant"⟩

/-- A client state whose cache already holds `hitEntry` for prompt `p`. -/
def hitState : ClientState :=
  ⟨pyf 0 1, 0, [(generateCacheKey defaultLLMConfig "p" none, hitEntry)]⟩

/-- A configuration whose session cost ceiling is zero, so any priced
request is rejected by the cost precondition. -/
def zeroCeilingConfig : LLMConfig :=
  ⟨"llama-3.1-8b-instant", pyf 1 10, 1000, pyf 30 1, 3, false, ".agent_cache", pyf 0 1⟩

/-- A minimal prompt template with the two placeholders of the real one. -/
def simpleTemplate : String := "{target_snippet} {context_snippets}"

/-- A decoded oracle dict with aggregate confidence 0.6 and one variable. -/
def goodParsed : ParsedJson :=
  ⟨some (.dictVal [("items",
      ⟨some (pyf 9 10), some "items = [1, 2, 3]", none, none, some 1⟩)]),
   none, none, none, none, none, none, none, some (pyf 3 5), none, none⟩

/-- A decoded oracle dict with aggregate confidence exactly 0.5. -/
def halfParsed : ParsedJson :=
  ⟨some (.dictVal [("q", ⟨some (pyf 9 10), none, none, none, none⟩)]),
   none, none, none, none, none, none, none, some (pyf 1 2), none, none⟩

/-- The syntax tree of `import ast` followed by `ast.parse(q)`: the name
`ast` is import-bound and then read. -/
def importUseTree : List PyNode :=
  [.importNode ["ast"],
   .exprStmt (.call (.attribute (.nameLoad "ast") "parse") [.nameLoad "q"])]

/-- The snippet whose tree `importUseTree` is. -/
def importUseSnippet : Snippet := ⟨"import ast\nast.parse(q)", 0⟩

/-- The oracle network answer used by the analyzer examples. -/
def okOracle : Except String OracleResponse := .ok ⟨"resp", 1, 2, 3, "m"⟩

/-- The fresh client state used by the analyzer examples. -/
def freshState : ClientState := ⟨pyf 0 1, 0, []⟩

/-- The `LLMResponse` that `generate` produces from `okOracle` under
`defaultLLMConfig` on a cache miss within budget. -/
def okLLMResponse : LLMResponse :=
  ⟨"resp", ⟨1, 2, 3, calculateCost defaultLLMConfig 3⟩, "m", false, pyf 0 1⟩

/-! # Theorems

Helper lemmas first, then one theorem per claim (with its witness or
counterexample where required). -/

/-- `intRange s e` is exactly the integer interval `[s, e)`. -/
theorem mem_intRange (s e i : Int) (h : s ≤ e) :
    i ∈ intRange s e ↔ s ≤ i ∧ i < e := by
  unfold intRange
  constructor
  · intro hi
    obtain ⟨k, hk, hki⟩ := List.mem_map.mp hi
    rw [List.mem_range] at hk
    have hcast : ((e - s).toNat : Int) = e - s := Int.toNat_of_nonneg (by omega)
    have hklt : (k : Int) < e - s := by
      calc (k : Int) < ((e - s).toNat : Int) := by exact_mod_cast hk
        _ = e - s := hcast
    have hknn : (0 : Int) ≤ (k : Int) := Int.ofNat_nonneg k
    constructor
    · omega
    · omega
  · intro hi
    obtain ⟨h1, h2⟩ := hi
    refine List.mem_map.mpr ⟨(i - s).toNat, List.mem_range.mpr ?_, ?_⟩
    · omega
    · have : ((i - s).toNat : Int) = i - s := Int.toNat_of_nonneg (by omega)
      omega

/-- C6 (confirmed): for `0 ≤ t < N` and `0 ≤ w`, the computed context window
is exactly the index interval `[max(0, t−w), min(N, t+w+1))` and always
contains the target index, boundary cases included. -/
theorem windowIndices_correct (t N w : Int) (h0 : 0 ≤ t) (h1 : t < N) (hw : 0 ≤ w) :
    (∀ i : Int, i ∈ calculateWindowIndices t N w ↔
      max 0 (t - w) ≤ i ∧ i < min N (t + w + 1)) ∧
    t ∈ calculateWindowIndices t N w := by
  have hse : max 0 (t - w) ≤ min N (t + w + 1) := by omega
  constructor
  · intro i
    exact mem_intRange (max 0 (t - w)) (min N (t + w + 1)) i hse
  · exact (mem_intRange (max 0 (t - w)) (min N (t + w + 1)) t hse).mpr (by omega)

/-- Witness for C6: the window property instantiated at the boundary case
`t = 0`, `N = 3`, `w = 1`. -/
theorem windowIndices_correct_witness :
    (0 : Int) ≤ 0 ∧ (0 : Int) < 3 ∧ (0 : Int) ≤ 1 ∧
    (0 : Int) ∈ calculateWindowIndices 0 3 1 :=
  ⟨by decide, by decide, by decide,
   (windowIndices_correct 0 3 1 (by decide) (by decide) (by decide)).2⟩

/-- C1 (corrected), counterexample: the CORE Structured-Recovery Parser —
the copy `ContextAnalyzer` imports — raises `ValueError` (modeled as
`Except.error`) instead of returning a default value, here on the empty
input string. -/
theorem coreParse_raises_counterexample :
    coreParse (fun _ => none) (fun _ => []) id id (fun _ => none) "" =
      .error "Empty or whitespace-only text provided" := rfl

/-- C1 (corrected, amended): the AGENTS-package parser never throws: it is a
total function, and whenever the direct decode, every cleaning strategy and
the json5 pass all fail, it returns the empty-but-valid default — all four
buckets empty, `overall_confidence` 0 — with the failure recorded in
`errors`, rather than raising. -/
theorem agentsParse_total_failure_default (loads : String → Option JsonVal)
    (strategies : List (String × (String → Option String)))
    (json5loads : Option (String → Option JsonVal)) (content : String)
    (h1 : loads (pyStrip content) = none)
    (h2 : tryCleaningStrategies loads strategies (pyStrip content) 1 = none)
    (h3 : ∀ j5, json5loads = some j5 →
      tryJson5Strategies j5 (strategies.take 4) (pyStrip content) = none) :
    agentsParse loads strategies json5loads content =
      ⟨false, fallbackEmptyData, "fallback_empty", pyStrip content, none,
       ["All parsing strategies failed"]⟩ := by
  cases hj : json5loads with
  | none => simp [agentsParse, h1, h2]
  | some j5 => simp [agentsParse, h1, h2, h3 j5 hj]

/-- Witness for C1: the default-value fallback evaluated on the input
`"hello"` with a decoder that always fails and an identity strategy. -/
theorem agentsParse_total_failure_default_witness :
    agentsParse (fun _ => none) [("noop", fun s => some s)] none "hello" =
      ⟨false, fallbackEmptyData, "fallback_empty", "hello", none,
       ["All parsing strategies failed"]⟩ :=
  agentsParse_total_failure_default (fun _ => none) [("noop", fun s => some s)]
    none "hello" rfl rfl (fun _ h => Option.noConfusion h)

/-- An entry whose name is a built-in never survives the `variables`
category: the first filter rule fires on it. -/
theorem categoryKeep_builtin_vars (name : String) (details : EntryDetails)
    (snippetContent : String) (localDefinitions : List String)
    (hmem : name ∈ builtinNames) :
    categoryKeep filterRules name details "variables" snippetContent localDefinitions
      = false := by
  simp [categoryKeep, filterRules, applyFilterRule, hmem]

/-- An entry whose name is a built-in never survives the `functions`
category. -/
theorem categoryKeep_builtin_funcs (name : String) (details : EntryDetails)
    (snippetContent : String) (localDefinitions : List String)
    (hmem : name ∈ builtinNames) :
    categoryKeep filterRules name details "functions" snippetContent localDefinitions
      = false := by
  simp [categoryKeep, filterRules, applyFilterRule, hmem]

/-- An entry named `self` never survives the `variables` category: rules 1-3
pass it and the `self_parameter` rule fires unconditionally. -/
theorem categoryKeep_self (details : EntryDetails)
    (snippetContent : String) (localDefinitions : List String) :
    categoryKeep filterRules "self" details "variables" snippetContent localDefinitions
      = false := by
  simp [categoryKeep, filterRules, applyFilterRule, builtinNames]

/-- C4 (corrected, amended): after filtering, no entry named after a
built-in remains in the `variables` or `functions` bucket — the
`builtin_filter` rule applies only to those two buckets — and no entry named
exactly `self` remains in the `variables` bucket. -/
theorem filter_soundness (m : DependencyMap) (snippetContent : String)
    (localDefinitions : List String) :
    (∀ p ∈ (filterDependencies m snippetContent localDefinitions).vars,
      p.1 ∉ builtinNames ∧ p.1 ≠ "self") ∧
    (∀ p ∈ (filterDependencies m snippetContent localDefinitions).functions,
      p.1 ∉ builtinNames) := by
  constructor
  · intro p hp
    have hkeep : categoryKeep filterRules p.1 p.2 "variables" snippetContent
        localDefinitions = true := (List.mem_filter.mp hp).2
    constructor
    · intro hmem
      rw [categoryKeep_builtin_vars p.1 p.2 snippetContent localDefinitions hmem]
        at hkeep
      exact Bool.false_ne_true hkeep
    · intro hself
      rw [hself] at hkeep
      rw [categoryKeep_self p.2 snippetContent localDefinitions] at hkeep
      exact Bool.false_ne_true hkeep
  · intro p hp
    have hkeep : categoryKeep filterRules p.1 p.2 "functions" snippetContent
        localDefinitions = true := (List.mem_filter.mp hp).2
    intro hmem
    rw [categoryKeep_builtin_funcs p.1 p.2 snippetContent localDefinitions hmem]
      at hkeep
    exact Bool.false_ne_true hkeep

/-- Witness for C4: the surviving entry of `survivorMap` is neither a
built-in nor `self`. -/
theorem filter_soundness_witness :
    ("user_data", survivorDetails) ∈
      (filterDependencies survivorMap "for i in user_data:" ["i"]).vars ∧
    "user_data" ∉ builtinNames ∧ "user_data" ≠ "self" :=
  ⟨by decide,
   (filter_soundness survivorMap "for i in user_data:" ["i"]).1
     ("user_data", survivorDetails) (by decide)⟩

/-- C4 counterexample: the claim as stated fails for the `imports` bucket —
an entry named after the built-in `len` with confidence 0.8 survives
filtering, because the `builtin_filter` rule does not apply to `imports`. -/
theorem filter_soundness_counterexample :
    "len" ∈ builtinNames ∧
    ("len", (⟨some (pyf 4 5), none, none, none, none⟩ : EntryDetails)) ∈
      (filterDependencies builtinImportMap "x = 1" ["x"]).imports := by
  constructor
  · decide
  · decide

/-- C10 (confirmed): the Precision Filter only removes entries — every
entry of any bucket of the filtered map is an entry of the same bucket of
the input map, with the identical details. -/
theorem filter_only_removes (m : DependencyMap) (snippetContent : String)
    (localDefinitions : List String) (p : String × EntryDetails) :
    (p ∈ (filterDependencies m snippetContent localDefinitions).vars → p ∈ m.vars) ∧
    (p ∈ (filterDependencies m snippetContent localDefinitions).classes → p ∈ m.classes) ∧
    (p ∈ (filterDependencies m snippetContent localDefinitions).imports → p ∈ m.imports) ∧
    (p ∈ (filterDependencies m snippetContent localDefinitions).functions → p ∈ m.functions) :=
  ⟨fun hp => (List.mem_filter.mp hp).1,
   fun hp => (List.mem_filter.mp hp).1,
   fun hp => (List.mem_filter.mp hp).1,
   fun hp => (List.mem_filter.mp hp).1⟩

/-- Witness for C10: the surviving variable entry of `survivorMap` is an
entry of the input map with the identical details. -/
theorem filter_only_removes_witness :
    ("user_data", survivorDetails) ∈ survivorMap.vars :=
  (filter_only_removes survivorMap "" [] ("user_data", survivorDetails)).1 (by decide)

/-- C5 (confirmed): whenever the heuristically assembled text matches at
least one deny-listed dangerous pattern, the built context's entire source
text is replaced by the inert placeholder comment and its safety flag is
false — for every dependency map and every external syntax checker. -/
theorem safety_gate (pyParses : String → Bool) (fixCommonIssues : String → String)
    (dependencies : DependencyMap)
    (h : dangerousProblems (joinContextLines (buildContextLines dependencies).1) ≠ []) :
    (buildContextHeuristic pyParses fixCommonIssues dependencies).contextCode =
      "# Context removed due to safety concerns" ∧
    (buildContextHeuristic pyParses fixCommonIssues dependencies).safetyValidated
      = false := by
  have hfalse : (dangerousProblems
      (joinContextLines (buildContextLines dependencies).1)).isEmpty = false := by
    cases hc : dangerousProblems (joinContextLines (buildContextLines dependencies).1) with
    | nil => exact absurd hc h
    | cons a l => rfl
  constructor
  · simp [buildContextHeuristic, hfalse]
  · simp [buildContextHeuristic, hfalse]

/-- Witness for C5: `dangerousVarsMap` assembles to `x = os.system`, which
matches the `os\.system` pattern, so the placeholder is returned. -/
theorem safety_gate_witness :
    dangerousProblems (joinContextLines (buildContextLines dangerousVarsMap).1) ≠ [] ∧
    (buildContextHeuristic (fun _ => true) id dangerousVarsMap).contextCode =
      "# Context removed due to safety concerns" ∧
    (buildContextHeuristic (fun _ => true) id dangerousVarsMap).safetyValidated = false :=
  ⟨by decide,
   (safety_gate (fun _ => true) id dangerousVarsMap (by decide)).1,
   (safety_gate (fun _ => true) id dangerousVarsMap (by decide)).2⟩

/-- C7 (confirmed): the heuristic context assembly is deterministic — it is
a function of the filtered map (given the same external syntax checker), so
two invocations on identical maps produce byte-identical source text. -/
theorem build_deterministic (pyParses : String → Bool)
    (fixCommonIssues : String → String) (d₁ d₂ : DependencyMap) (h : d₁ = d₂) :
    (buildContextHeuristic pyParses fixCommonIssues d₁).contextCode =
      (buildContextHeuristic pyParses fixCommonIssues d₂).contextCode := by
  rw [h]

/-- Witness for C7: determinism applied to two structurally identical maps. -/
theorem build_deterministic_witness :
    (buildContextHeuristic (fun _ => true) id survivorMap).contextCode =
      (buildContextHeuristic (fun _ => true) id survivorMap).contextCode :=
  build_deterministic (fun _ => true) id survivorMap survivorMap rfl

/-- The imports loop never appends a line already present: it preserves
`Nodup` of the accumulated `context_lines`. -/
theorem importsPhase_nodup_aux (l : List (String × EntryDetails)) :
    ∀ (contextLines included : List String), contextLines.Nodup →
      (importsPhase l contextLines included).1.Nodup := by
  induction l with
  | nil => intro contextLines included h; exact h
  | cons it rest ih =>
    intro contextLines included h
    obtain ⟨importName, importInfo⟩ := it
    simp only [importsPhase]
    split
    · exact ih contextLines included h
    · rename_i hnot
      refine ih _ _ ?_
      rw [List.nodup_append]
      refine ⟨h, List.nodup_singleton _, ?_⟩
      intro a ha hb
      rw [List.mem_singleton] at hb
      subst hb
      exact hnot ha

/-- C9 (corrected, amended): deduplication happens only for the imports
bucket — the import lines assembled by the imports loop contain no
duplicates (an import statement contributed twice collapses to one). -/
theorem imports_deduplicated (imports : List (String × EntryDetails)) :
    (importsPhase imports [] []).1.Nodup :=
  importsPhase_nodup_aux imports [] [] List.nodup_nil

/-- C9 counterexample: the claim as stated fails for the other buckets —
two variable entries contributing the identical statement `a = 1` produce it
twice in the assembled lines and in the built source text. -/
theorem imports_deduplicated_counterexample :
    (buildContextLines dupVarsMap).1.count "a = 1" = 2 ∧
    (buildContextHeuristic (fun _ => true) id dupVarsMap).contextCode =
      "a = 1\n\na = 1" := by
  constructor
  · decide
  · decide

/-- C8 (corrected, amended): the cache key is a deterministic function of
the prompt, model, temperature, max_tokens AND the forwarded system message
— calls agreeing on all five fields compute the same key — and on a cache
hit `generate` returns the cached text marked `cached=true` with the client
state, session counters included, unchanged. -/
theorem cacheKey_deterministic_and_hit
    (c₁ c₂ : LLMConfig) (p₁ p₂ : String) (s₁ s₂ : Option String)
    (hp : p₁ = p₂) (hm : c₁.model = c₂.model)
    (ht : c₁.temperature = c₂.temperature) (hk : c₁.maxTokens = c₂.maxTokens)
    (hs : s₁ = s₂)
    (config : LLMConfig) (st : ClientState) (oracle : Except String OracleResponse)
    (prompt : String) (systemMessage : Option String) (entry : CacheEntry)
    (hc : config.cacheEnabled = true)
    (hl : st.cache.lookup (generateCacheKey config prompt systemMessage) = some entry) :
    generateCacheKey c₁ p₁ s₁ = generateCacheKey c₂ p₂ s₂ ∧
    generate config st oracle prompt systemMessage =
      (.ok ⟨entry.content, entry.usage, entry.model, true, pyf 0 1⟩, st) := by
  constructor
  · simp [generateCacheKey, hp, hm, ht, hk, hs]
  · simp [generate, hc, hl]

/-- Witness for C8: a hit on `hitState` returns the cached text with
`cached=true` and leaves the state untouched. -/
theorem cacheKey_deterministic_and_hit_witness :
    generateCacheKey defaultLLMConfig "p" none =
      generateCacheKey defaultLLMConfig "p" none ∧
    generate defaultLLMConfig hitState (.error "network down") "p" none =
      (.ok ⟨"cached text", ⟨1, 2, 3, pyf 0 1⟩, "llama-3.1-8b-instant", true, pyf 0 1⟩,
       hitState) :=
  cacheKey_deterministic_and_hit defaultLLMConfig defaultLLMConfig "p" "p" none none
    rfl rfl rfl rfl rfl defaultLLMConfig hitState (.error "network down") "p" none
    hitEntry rfl (by decide)

/-- C8 counterexample: the claim as stated fails — two `generate` calls
agreeing on prompt, model, temperature and max_tokens but differing in
system message hash different cache-key records (the key also covers the
`system` keyword). -/
theorem cacheKey_counterexample :
    (generateCacheKey defaultLLMConfig "p" (some "A")).prompt =
      (generateCacheKey defaultLLMConfig "p" (some "B")).prompt ∧
    (generateCacheKey defaultLLMConfig "p" (some "A")).model =
      (generateCacheKey defaultLLMConfig "p" (some "B")).model ∧
    (generateCacheKey defaultLLMConfig "p" (some "A")).temperature =
      (generateCacheKey defaultLLMConfig "p" (some "B")).temperature ∧
    (generateCacheKey defaultLLMConfig "p" (some "A")).maxTokens =
      (generateCacheKey defaultLLMConfig "p" (some "B")).maxTokens ∧
    generateCacheKey defaultLLMConfig "p" (some "A") ≠
      generateCacheKey defaultLLMConfig "p" (some "B") := by
  refine ⟨rfl, rfl, rfl, rfl, ?_⟩
  decide

/-- C2 (corrected, amended): when the Oracle Client rejects the `generate`
call on the cost precondition, `analyze` catches the `ValueError` in its
inner `except` and returns the AST fallback with `success=true` and the
fallback's confidence, recording the aggregated cost-limit error in the
`error` field; the rejection is NOT propagated as a failed result. -/
theorem analyze_cost_limit_fallback (config : LLMConfig) (windowSize : Int)
    (promptTemplate : String) (parseResponse : String → Except String ParsedJson)
    (tree : Option (List PyNode)) (st : ClientState)
    (oracle : Except String OracleResponse) (snippet : Snippet)
    (allSnippets : List Snippet) (snippetIndex : Nat)
    (hv : validateInputs snippet allSnippets snippetIndex = none)
    (hcost : (generate config st oracle
      (analyzePrompt promptTemplate snippet allSnippets snippetIndex windowSize)
      (some analyzerSystemMessage)).1 = .error .costLimit) :
    (analyzeModel config windowSize promptTemplate parseResponse tree st oracle
      snippet allSnippets snippetIndex).1 =
      ⟨true, analyzeWithAstFallback tree, (analyzeWithAstFallback tree).confidence,
       pyf 0 1,
       some ("LLM failed: " ++ ("All " ++ toString 3 ++
         " attempts failed. Last error: " ++ renderGenError .costLimit))⟩ := by
  simp [analyzeModel, hv, hcost, withTimeoutAndRetry]

/-- Witness for C2: a zero-ceiling configuration rejects the call and the
analyzer still answers with the fallback and `success=true`. -/
theorem analyze_cost_limit_fallback_witness :
    (analyzeModel zeroCeilingConfig 20 simpleTemplate (fun _ => .error "unused")
      (some []) freshState okOracle ⟨"", 0⟩ [⟨"", 0⟩] 0).1 =
      ⟨true, analyzeWithAstFallback (some []),
       (analyzeWithAstFallback (some [])).confidence, pyf 0 1,
       some "LLM failed: All 3 attempts failed. Last error: Request would exceed cost limit"⟩ :=
  analyze_cost_limit_fallback zeroCeilingConfig 20 simpleTemplate
    (fun _ => .error "unused") (some []) freshState okOracle ⟨"", 0⟩ [⟨"", 0⟩] 0
    (by decide) rfl

set_option maxRecDepth 8000 in
/-- C2 counterexample: the claim as stated is false on the code — at a
concrete cost-limit rejection the analyzer returns `success=true` with
confidence 0.3 (the AST fallback), not `success=false` with confidence 0;
the error field shows the failure was the cost limit. -/
theorem analyze_cost_limit_counterexample :
    (analyzeModel zeroCeilingConfig 20 simpleTemplate (fun _ => .error "unused")
      (some []) freshState okOracle ⟨"", 0⟩ [⟨"", 0⟩] 0).1.success = true ∧
    (analyzeModel zeroCeilingConfig 20 simpleTemplate (fun _ => .error "unused")
      (some []) freshState okOracle ⟨"", 0⟩ [⟨"", 0⟩] 0).1.confidence = pyf 3 10 ∧
    (analyzeModel zeroCeilingConfig 20 simpleTemplate (fun _ => .error "unused")
      (some []) freshState okOracle ⟨"", 0⟩ [⟨"", 0⟩] 0).1.error =
      some "LLM failed: All 3 attempts failed. Last error: Request would exceed cost limit" := by
  refine ⟨?_, ?_, ?_⟩
  · decide
  · decide
  · decide

/-- C3 (corrected, amended): with valid inputs, (a) when the oracle call
succeeds and the recovered map's confidence is STRICTLY above 0.5, the
oracle-derived map is the successful result; (b) at confidence not above
0.5 (including exactly 0.5) or (c) on any oracle-call failure, the analyzer
runs the syntax-tree fallback instead; and (d) the fallback emits exactly
the identifiers read (`Load` context) but never assigned (`Store`) or bound
by a `def`/`class` in the fragment — import bindings are NOT excluded — and
outside the fixed 8-name allow-list, each as a variable entry with
confidence 0.3, type `unknown` and unknown origin, under aggregate
confidence 0.3. -/
theorem analyze_decision_rule (config : LLMConfig) (windowSize : Int)
    (promptTemplate : String) (parseResponse : String → Except String ParsedJson)
    (tree : Option (List PyNode)) (st : ClientState)
    (oracle : Except String OracleResponse) (snippet : Snippet)
    (allSnippets : List Snippet) (snippetIndex : Nat)
    (hv : validateInputs snippet allSnippets snippetIndex = none) :
    (∀ llmAnalysis : LLMResponse,
      (generate config st oracle
        (analyzePrompt promptTemplate snippet allSnippets snippetIndex windowSize)
        (some analyzerSystemMessage)).1 = .ok llmAnalysis →
      (pyfLt (pyf 1 2) (setProcessingTime
          (parseLLMResponse (parseResponse llmAnalysis.content))
          llmAnalysis.processingTime).confidence = true →
        (analyzeModel config windowSize promptTemplate parseResponse tree st oracle
          snippet allSnippets snippetIndex).1 =
          ⟨true,
           setProcessingTime (parseLLMResponse (parseResponse llmAnalysis.content))
             llmAnalysis.processingTime,
           (setProcessingTime (parseLLMResponse (parseResponse llmAnalysis.content))
             llmAnalysis.processingTime).confidence,
           llmAnalysis.processingTime, none⟩) ∧
      (pyfLt (pyf 1 2) (setProcessingTime
          (parseLLMResponse (parseResponse llmAnalysis.content))
          llmAnalysis.processingTime).confidence = false →
        (analyzeModel config windowSize promptTemplate parseResponse tree st oracle
          snippet allSnippets snippetIndex).1 =
          ⟨true, analyzeWithAstFallback tree,
           (analyzeWithAstFallback tree).confidence, pyf 0 1,
           some "LLM failed: Low confidence LLM analysis, using fallback"⟩)) ∧
    (∀ e : GenError,
      (generate config st oracle
        (analyzePrompt promptTemplate snippet allSnippets snippetIndex windowSize)
        (some analyzerSystemMessage)).1 = .error e →
      (analyzeModel config windowSize promptTemplate parseResponse tree st oracle
        snippet allSnippets snippetIndex).1 =
        ⟨true, analyzeWithAstFallback tree,
         (analyzeWithAstFallback tree).confidence, pyf 0 1,
         some ("LLM failed: " ++ ("All " ++ toString 3 ++
           " attempts failed. Last error: " ++ renderGenError e))⟩) ∧
    (∀ body : List PyNode, tree = some body →
      (∀ v : String,
        v ∈ (analyzeWithAstFallback tree).vars.map Prod.fst ↔
          (v ∈ usedNamesList body ∧ v ∉ definedNamesList body ∧
           v ∉ astFallbackAllowList)) ∧
      (∀ p ∈ (analyzeWithAstFallback tree).vars,
        p.2.confidence = some (pyf 3 10) ∧ p.2.typeHint = some "unknown" ∧
        p.2.definedInSnippet = none ∧
        p.2.definition = some ("# Unknown definition for: " ++ p.1)) ∧
      (analyzeWithAstFallback tree).confidence = pyf 3 10) := by
  refine ⟨?_, ?_, ?_⟩
  · intro llmAnalysis hok
    constructor
    · intro hgt
      simp [analyzeModel, hv, hok, withTimeoutAndRetry, hgt]
    · intro hle
      simp [analyzeModel, hv, hok, withTimeoutAndRetry, hle]
  · intro e he
    simp [analyzeModel, hv, he, withTimeoutAndRetry]
  · intro body hbody
    subst hbody
    refine ⟨?_, ?_, rfl⟩
    · intro v
      simp only [analyzeWithAstFallback, List.map_map, List.mem_map,
        Function.comp, List.mem_filter, List.mem_dedup]
      constructor
      · rintro ⟨a, ⟨ha, hpred⟩, rfl⟩
        have := of_decide_eq_true hpred
        exact ⟨ha, this.1, this.2⟩
      · rintro ⟨ha, hd, hb⟩
        exact ⟨v, ⟨ha, decide_eq_true ⟨hd, hb⟩⟩, rfl⟩
    · intro p hp
      simp only [analyzeWithAstFallback, List.mem_map] at hp
      obtain ⟨a, _, rfl⟩ := hp
      exact ⟨rfl, rfl, rfl, rfl⟩

set_option maxRecDepth 8000 in
/-- Witness for C3: the oracle map recovered at confidence 0.6 is used as
the successful result. -/
theorem analyze_decision_rule_witness :
    (analyzeModel defaultLLMConfig 20 simpleTemplate (fun _ => .ok goodParsed)
      (some importUseTree) freshState okOracle importUseSnippet
      [importUseSnippet] 0).1 =
      ⟨true,
       setProcessingTime (parseLLMResponse (.ok goodParsed)) (pyf 0 1),
       (setProcessingTime (parseLLMResponse (.ok goodParsed)) (pyf 0 1)).confidence,
       pyf 0 1, none⟩ :=
  (((analyze_decision_rule defaultLLMConfig 20 simpleTemplate
      (fun _ => .ok goodParsed) (some importUseTree) freshState okOracle
      importUseSnippet [importUseSnippet] 0 (by decide)).1
    okLLMResponse rfl).1 (by decide))

set_option maxRecDepth 8000 in
/-- C3 counterexample: the claim as stated is false on the code in two ways.
At a recovered confidence of exactly 0.5 — "not below the threshold" — the
analyzer does NOT use the oracle map (the source test is strictly greater
than 0.5) but falls back, and the fallback emits `ast` as an
unknown-origin variable even though `ast` is bound by `import ast` in the
fragment (the walk ignores import bindings). -/
theorem analyze_decision_rule_counterexample :
    (parseLLMResponse ((fun _ => .ok halfParsed) "resp")).confidence = pyf 1 2 ∧
    (analyzeModel defaultLLMConfig 20 simpleTemplate (fun _ => .ok halfParsed)
      (some importUseTree) freshState okOracle importUseSnippet
      [importUseSnippet] 0).1.data ≠
      setProcessingTime (parseLLMResponse (.ok halfParsed)) (pyf 0 1) ∧
    "ast" ∈ (analyzeModel defaultLLMConfig 20 simpleTemplate
      (fun _ => .ok halfParsed) (some importUseTree) freshState okOracle
      importUseSnippet [importUseSnippet] 0).1.data.vars.map Prod.fst ∧
    (analyzeModel defaultLLMConfig 20 simpleTemplate (fun _ => .ok halfParsed)
      (some importUseTree) freshState okOracle importUseSnippet
      [importUseSnippet] 0).1.confidence = pyf 3 10 := by
  refine ⟨?_, ?_, ?_, ?_⟩
  · decide
  · decide
  · decide
  · decide

end Extractor
